import Mathlib

/-!
Verification of the certificate DOCX generation service (src/main.py)
against its natural-language specification.

The embedding models Python strings as lists of characters and byte
buffers as lists of naturals.  External effects (the R2 object store,
the LibreOffice subprocess, the docxtpl renderer) are represented by an
oracle structure recording the outcome of each external interaction,
and the route handler is a pure function from the request plus that
oracle to the list of external calls it performs and the HTTP response
it produces.
-/

/-- Byte buffers are modelled as lists of naturals. -/
abbrev Bytes := List Nat

/-- Model of the whitespace class used by Python `str.strip()` and the
regular expression class `\s` (restricted to the ASCII whitespace
characters, which are the ones both agree on). -/
def isPySpace (c : Char) : Bool :=
  c = ' ' || c = '\t' || c = '\n' || c = '\r' || c = '\x0b' || c = '\x0c'

/-- Characters kept by the character class `[a-zA-Z0-9_]` of the second
substitution in `safe_part` (src/main.py line 155). -/
def isAllowed (c : Char) : Bool :=
  ('a' ≤ c && c ≤ 'z') || ('A' ≤ c && c ≤ 'Z') || ('0' ≤ c && c ≤ '9') || c = '_'

/-- Model of Python `str.strip()`: remove leading and trailing
whitespace (src/main.py line 153). -/
def pyStrip (s : List Char) : List Char :=
  ((s.dropWhile isPySpace).reverse.dropWhile isPySpace).reverse

/-- Scanner implementing `re.sub(r"\s+", "_", s)`: each maximal run of
whitespace characters is replaced by a single underscore.  The boolean
argument records whether the scanner is currently inside a whitespace
run (for which the underscore has already been emitted). -/
def subWsAux : Bool → List Char → List Char
  | _, [] => []
  | inRun, c :: cs =>
    if isPySpace c then
      if inRun then subWsAux true cs
      else '_' :: subWsAux true cs
    else c :: subWsAux false cs

/-- Model of `re.sub(r"\s+", "_", s)` (src/main.py line 154). -/
def subWs (s : List Char) : List Char := subWsAux false s

/-- Model of `safe_part` (src/main.py lines 147-156): strip surrounding
whitespace, replace whitespace runs by single underscores, then delete
every character outside `[a-zA-Z0-9_]`. -/
def safe_part (s : List Char) : List Char :=
  (subWs (pyStrip s)).filter isAllowed

/-- Spec-side formulation of run collapsing: keep only the last
character of each maximal whitespace run (drop a whitespace character
whenever it is immediately followed by another one). -/
def collapseWsRuns : List Char → List Char
  | [] => []
  | [c] => [c]
  | a :: b :: rest =>
    if isPySpace a && isPySpace b then collapseWsRuns (b :: rest)
    else a :: collapseWsRuns (b :: rest)

/-- Spec-side replacement of a single whitespace character by an
underscore. -/
def wsUnderscore (c : Char) : Char :=
  if isPySpace c then '_' else c

/-- Sanitizer as described by the specification, section 4.5: trim
surrounding whitespace, collapse each maximal internal whitespace run
to one underscore, then strip every character outside `[A-Za-z0-9_]`. -/
def specSanitize (s : List Char) : List Char :=
  (((collapseWsRuns (pyStrip s)).map wsUnderscore).filter isAllowed)

/-- Whether the head of a list is a whitespace character. -/
def headIsWs : List Char → Bool
  | [] => false
  | c :: _ => isPySpace c

/-- Decimal digit test, as used by the ISO date parser model. -/
def isDig (c : Char) : Bool := '0' ≤ c && c ≤ '9'

/-- Numeric value of a decimal digit character. -/
def digVal (c : Char) : Nat := c.toNat - 48

/-- Leap year rule of the proleptic Gregorian calendar used by the
Python `datetime` module. -/
def isLeap (y : Nat) : Bool := y % 4 = 0 && (y % 100 ≠ 0 || y % 400 = 0)

/-- Number of days in a month, as validated by `datetime`. -/
def daysInMonth (y m : Nat) : Nat :=
  if m = 2 then (if isLeap y then 29 else 28)
  else if m = 4 || m = 6 || m = 9 || m = 11 then 30
  else 31

/-- Date produced by the parser model; the time-of-day part is parsed
for validity but discarded, since `strftime` with format string
`%m/%d/%Y` only reads the date fields. -/
structure PyDate where
  year : Nat
  month : Nat
  day : Nat
deriving DecidableEq, Repr

/-- Model of the time-of-day component accepted by
`datetime.fromisoformat`: `HH:MM` optionally followed by `:SS`
(fractional seconds and offsets are not modelled; no claim exercises
them). -/
def validTime (t : List Char) : Bool :=
  match t with
  | h1 :: h2 :: ':' :: m1 :: m2 :: rest =>
    isDig h1 && isDig h2 && isDig m1 && isDig m2 &&
    (digVal h1 * 10 + digVal h2 < 24) && (digVal m1 * 10 + digVal m2 < 60) &&
    (match rest with
     | [] => true
     | ':' :: s1 :: s2 :: [] =>
       isDig s1 && isDig s2 && (digVal s1 * 10 + digVal s2 < 60)
     | _ => false)
  | _ => false

/-- Everything after the ten date characters: either nothing, or one
separator character (any character, matching `fromisoformat`) followed
by a valid time-of-day. -/
def validTimeTail (t : List Char) : Bool :=
  match t with
  | [] => true
  | _sep :: rest => validTime rest

/-- Model of `datetime.fromisoformat` restricted to the documented
`YYYY-MM-DD[<sep>HH:MM[:SS]]` forms: a four digit year, two digit month
and day separated by hyphens, with calendar validation (month range,
day range including leap years, year at least 1), optionally followed
by a separator and a time-of-day. -/
def fromisoformat (s : List Char) : Option PyDate :=
  match s with
  | y1 :: y2 :: y3 :: y4 :: sep1 :: m1 :: m2 :: sep2 :: d1 :: d2 :: rest =>
    if sep1 = '-' ∧ sep2 = '-' ∧
       isDig y1 ∧ isDig y2 ∧ isDig y3 ∧ isDig y4 ∧
       isDig m1 ∧ isDig m2 ∧ isDig d1 ∧ isDig d2 then
      let y := digVal y1 * 1000 + digVal y2 * 100 + digVal y3 * 10 + digVal y4
      let m := digVal m1 * 10 + digVal m2
      let d := digVal d1 * 10 + digVal d2
      if 1 ≤ y ∧ 1 ≤ m ∧ m ≤ 12 ∧ 1 ≤ d ∧ d ≤ daysInMonth y m ∧
         validTimeTail rest = true then
        some ⟨y, m, d⟩
      else none
    else none
  | _ => none

/-- Two digit zero padded decimal rendering, as produced by `strftime`
for `%m` and `%d`. -/
def pad2 (n : Nat) : List Char :=
  [Nat.digitChar (n / 10 % 10), Nat.digitChar (n % 10)]

/-- Four digit zero padded decimal rendering, as produced by `strftime`
for `%Y` on four digit years. -/
def pad4 (n : Nat) : List Char :=
  [Nat.digitChar (n / 1000 % 10), Nat.digitChar (n / 100 % 10),
   Nat.digitChar (n / 10 % 10), Nat.digitChar (n % 10)]

/-- Rendering of a parsed date with format string `%m/%d/%Y`. -/
def mmddyyyyOf (d : PyDate) : List Char :=
  pad2 d.month ++ '/' :: pad2 d.day ++ '/' :: pad4 d.year

/-- Model of `format_mmddyyyy` (src/main.py lines 124-136): attempt an
ISO parse and reformat to `MM/DD/YYYY`; on any parse failure return the
input unchanged. -/
def format_mmddyyyy (s : List Char) : List Char :=
  match fromisoformat s with
  | some d => mmddyyyyOf d
  | none => s

/-- Model of `dict.get(key, default)` on a string-valued mapping,
represented as an association list. -/
def dictGet (data : List (List Char × List Char)) (key dflt : List Char) : List Char :=
  match data.find? (fun p => p.1 = key) with
  | some p => p.2
  | none => dflt

/-- Model of `VERIFY_BASE_URL.rstrip('/')` (src/main.py line 182):
remove every trailing slash from the base URL. -/
def rstripSlashes (s : List Char) : List Char :=
  (s.reverse.dropWhile (fun c => c = '/')).reverse

/-- Model of the f-string at src/main.py line 182 building the QR
payload: the base URL with trailing slashes removed, one slash, then
the raw certificate number. -/
def mkVerifyUrl (base cert : List Char) : List Char :=
  rstripSlashes base ++ '/' :: cert

/-- Python exceptions that the handler body can raise: an
`HTTPException` with status code and detail, a
`subprocess.CalledProcessError` carrying the exit status, and a
`RuntimeError` with a message. -/
inductive PyExc where
  | httpExc (status : Nat) (detail : List Char)
  | calledProcessError (exitCode : Int)
  | runtimeError (msg : List Char)
deriving DecidableEq, Repr

/-- Model of Python `str(e)` for the exceptions above, as interpolated
into the 500 response detail at src/main.py line 269. -/
def strOfExc : PyExc → List Char
  | .httpExc status detail => (Nat.repr status).data ++ ':' :: ' ' :: detail
  | .calledProcessError code =>
    ("Command returned non-zero exit status ").data ++ (Int.repr code).data ++ ['.']
  | .runtimeError msg => msg

/-- Field and message string constants of src/main.py, shared between
the model definitions and the theorems. -/
def keyCert : List Char := ("certificate_number").data

/-- The first_name field key. -/
def keyFirst : List Char := ("first_name").data

/-- The middle_name field key. -/
def keyMiddle : List Char := ("middle_name").data

/-- The last_name field key. -/
def keyLast : List Char := ("last_name").data

/-- The training_date field key. -/
def keyTraining : List Char := ("training_date").data

/-- The issue_date field key. -/
def keyIssue : List Char := ("issue_date").data

/-- The instructor_name field key. -/
def keyInstructor : List Char := ("instructor_name").data

/-- Detail of the 400 raised at src/main.py line 180. -/
def msgCertMissing : List Char := ("certificate_number missing").data

/-- Detail of the 400 raised at src/main.py line 236. -/
def msgIdentityRequired : List Char :=
  ("certificate_number, first_name and last_name are required").data

/-- Extension suffix of the derived docx key. -/
def dotDocx : List Char := ('.' :: ("docx").data)

/-- Extension suffix of the converted pdf key. -/
def dotPdf : List Char := ('.' :: ("pdf").data)

/-- Folder part at the front of the derived key (src/main.py line 248). -/
def certFolder : List Char := ("certificates/").data

/-- Model of the pydantic `GenerateDocxPayload` (src/main.py lines
141-145): the request body fields.  The `data` mapping is restricted to
string values, which is the shape every claim exercises. -/
structure Payload where
  templateKey : List Char
  signatureKey : List Char
  outputKey : List Char
  data : List (List Char × List Char)

/-- An incoming request: body plus the optional internal API key
header. -/
structure Request where
  payload : Payload
  apiKeyHeader : Option (List Char)

/-- Environment configuration read at startup. -/
structure Env where
  internalApiKey : List Char
  verifyBaseUrl : List Char

/-- Outcomes of the external interactions of one request, fixed up
front: the two object store downloads, the docxtpl render, the
LibreOffice process (exit status and whether the output file exists),
and the final upload. -/
structure Oracle where
  template : Except (List Char) Bytes
  signature : Except (List Char) Bytes
  renderOk : Except (List Char) Unit
  convertExit : Int
  convertOutput : Option Bytes
  uploadOk : Except (List Char) Unit

/-- Stand-in for `qrcode.make` plus PNG serialisation: a deterministic
function of the payload string (the pixel content is irrelevant to
every claim). -/
def qrMake (payload : List Char) : Bytes := payload.map Char.toNat

/-- Stand-in for the PIL pipeline at src/main.py lines 193-199 (decode,
convert to RGBA, thumbnail to 800 by 300, re-encode); byte content is
irrelevant to every claim. -/
def normalizeSignature (raw : Bytes) : Bytes := raw

/-- Model of a `docxtpl.InlineImage`: image bytes plus the display
width in millimetres. -/
structure InlineImageM where
  image : Bytes
  widthMm : Nat
deriving DecidableEq, Repr

/-- Model of the render context built at src/main.py lines 204-220. -/
structure RenderContext where
  first_name : List Char
  middle_name : List Char
  last_name : List Char
  training_date : List Char
  issue_date : List Char
  certificate_number : List Char
  instructor_name : List Char
  qr_code : InlineImageM
  instructor_signature : InlineImageM

/-- Context construction from the request data mapping and the two
inline images (src/main.py lines 204-220): the two date fields pass
through `format_mmddyyyy`, all other text fields are bound verbatim,
absent keys default to the empty string. -/
def build_context (data : List (List Char × List Char))
    (qr sig : InlineImageM) : RenderContext where
  first_name := dictGet data keyFirst []
  middle_name := dictGet data keyMiddle []
  last_name := dictGet data keyLast []
  training_date := format_mmddyyyy (dictGet data keyTraining [])
  issue_date := format_mmddyyyy (dictGet data keyIssue [])
  certificate_number := dictGet data keyCert []
  instructor_name := dictGet data keyInstructor []
  qr_code := qr
  instructor_signature := sig

/-- Stand-in for `tpl.render` followed by `tpl.save`: the rendered
document bytes as a function of template bytes and context (content
irrelevant to every claim, only identity of the inputs matters). -/
def renderedDoc (template : Bytes) (_ctx : RenderContext) : Bytes := template

/-- Model of `"_".join(parts)`. -/
def pyJoin (sep : List Char) : List (List Char) → List Char
  | [] => []
  | [x] => x
  | x :: y :: rest => x ++ sep ++ pyJoin sep (y :: rest)

/-- Model of the key derivation block of `generate_docx` (src/main.py
lines 230-248): sanitize the four identity fields, reject the request
with a 400 `HTTPException` when the certificate number, first name or
last name is empty after sanitization, then join the parts with
underscores (the middle name only when non-empty), append `.docx` and
put the folder part in front. -/
def derive_output_key (data : List (List Char × List Char)) :
    Except PyExc (List Char) :=
  let cert_no := safe_part (dictGet data keyCert [])
  let first := safe_part (dictGet data keyFirst [])
  let middle := safe_part (dictGet data keyMiddle [])
  let last := safe_part (dictGet data keyLast [])
  if cert_no = [] ∨ first = [] ∨ last = [] then
    .error (.httpExc 400 msgIdentityRequired)
  else
    let parts := [cert_no, first] ++ (if middle = [] then [] else [middle]) ++ [last]
    .ok (certFolder ++ pyJoin ['_'] parts ++ dotDocx)

/-- Model of `convert_docx_to_pdf` (src/main.py lines 73-105): run the
LibreOffice process with `check=True`, which raises
`subprocess.CalledProcessError` on a non-zero exit status; if the
process exits zero but the output file is absent, raise
`RuntimeError("PDF conversion failed")`; otherwise return the produced
bytes.  The docx argument is written to the temporary directory and
consumed by the external process, whose behaviour the oracle fixes. -/
def convert_docx_to_pdf (o : Oracle) (_docx : Bytes) : Except PyExc Bytes :=
  if o.convertExit ≠ 0 then .error (.calledProcessError o.convertExit)
  else
    match o.convertOutput with
    | none => .error (.runtimeError ("PDF conversion failed").data)
    | some b => .ok b

/-- Model of Python `s.replace(pat, rep)` for a non-empty pattern: scan
left to right, replacing each non-overlapping occurrence; the numeric
argument counts characters of a matched occurrence that remain to be
skipped. -/
def replaceAllAux (pat rep : List Char) : Nat → List Char → List Char
  | _, [] => []
  | 0, c :: cs =>
    if (c :: cs).take pat.length = pat ∧ pat ≠ [] then
      rep ++ replaceAllAux pat rep (pat.length - 1) cs
    else c :: replaceAllAux pat rep 0 cs
  | Nat.succ n, _ :: cs => replaceAllAux pat rep n cs

/-- Model of `output_key.replace(".docx", ".pdf")` style calls
(src/main.py line 253). -/
def replaceAll (pat rep s : List Char) : List Char :=
  replaceAllAux pat rep 0 s

/-- Count of non-overlapping occurrences of a non-empty pattern, with
the same scanning discipline as `replaceAllAux`. -/
def countOccAux (pat : List Char) : Nat → List Char → Nat
  | _, [] => 0
  | 0, c :: cs =>
    if (c :: cs).take pat.length = pat ∧ pat ≠ [] then
      1 + countOccAux pat (pat.length - 1) cs
    else countOccAux pat 0 cs
  | Nat.succ n, _ :: cs => countOccAux pat n cs

/-- Number of occurrences of a pattern in a string. -/
def countOcc (pat s : List Char) : Nat := countOccAux pat 0 s

/-- One external interaction performed by the handler. -/
inductive ExtCall where
  | download (key : List Char)
  | convert
  | upload (key : List Char)
deriving DecidableEq, Repr

/-- HTTP response produced by the route. -/
inductive Response where
  | ok (key : List Char)
  | err (status : Nat) (detail : List Char)
deriving DecidableEq, Repr

/-- Model of the route handler `generate_docx` (src/main.py lines
165-269).  The 403 API key check runs before the `try` block; inside
the block every raised exception — including the two deliberately
raised 400 `HTTPException`s — is caught by the final
`except Exception` clause and reported as a 500 response whose detail
is `str(e)`.  The first component of the result is the ordered list of
external interactions attempted (object store downloads, the
LibreOffice invocation, the object store upload). -/
def generate_docx (env : Env) (o : Oracle) (req : Request) :
    List ExtCall × Response :=
  if req.apiKeyHeader ≠ some env.internalApiKey then
    ([], .err 403 ('F' :: "orbidden".data))
  else
    match o.template with
    | .error m => ([.download req.payload.templateKey], .err 500 m)
    | .ok templateBytes =>
      let cert_no := dictGet req.payload.data keyCert []
      if cert_no = [] then
        ([.download req.payload.templateKey],
         .err 500 (strOfExc (.httpExc 400 msgCertMissing)))
      else
        let verify_url := mkVerifyUrl env.verifyBaseUrl cert_no
        let qr := InlineImageM.mk (qrMake verify_url) 30
        match o.signature with
        | .error m =>
          ([.download req.payload.templateKey, .download req.payload.signatureKey],
           .err 500 m)
        | .ok signatureBytes =>
          let sig := InlineImageM.mk (normalizeSignature signatureBytes) 30
          let context := build_context req.payload.data qr sig
          match o.renderOk with
          | .error m =>
            ([.download req.payload.templateKey, .download req.payload.signatureKey],
             .err 500 m)
          | .ok _ =>
            let docxBytes := renderedDoc templateBytes context
            match derive_output_key req.payload.data with
            | .error e =>
              ([.download req.payload.templateKey, .download req.payload.signatureKey],
               .err 500 (strOfExc e))
            | .ok output_key =>
              match convert_docx_to_pdf o docxBytes with
              | .error e =>
                ([.download req.payload.templateKey, .download req.payload.signatureKey,
                  .convert],
                 .err 500 (strOfExc e))
              | .ok _pdfBytes =>
                let pdf_key := replaceAll dotDocx dotPdf output_key
                match o.uploadOk with
                | .error m =>
                  ([.download req.payload.templateKey, .download req.payload.signatureKey,
                    .convert, .upload pdf_key],
                   .err 500 m)
                | .ok _ =>
                  ([.download req.payload.templateKey, .download req.payload.signatureKey,
                    .convert, .upload pdf_key],
                   .ok pdf_key)

/-- The textual `YYYY-MM-DD` form of a date, as the strings the claim
quantifies over. -/
def isoDateChars (y m d : Nat) : List Char :=
  pad4 y ++ '-' :: pad2 m ++ '-' :: pad2 d

/-- Concrete request data of the scenario in specification section 8:
certificate number CERT-001, Jane Doe, training date 2024-01-15. -/
def data0 : List (List Char × List Char) :=
  [(keyCert, ("CERT-001").data), (keyFirst, ("Jane").data),
   (keyLast, ("Doe").data), (keyTraining, ("2024-01-15").data)]

/-- Concrete environment for the closed evaluations. -/
def env0 : Env := ⟨("secret").data, ("https://verify.example").data⟩

/-- Oracle in which every external interaction succeeds. -/
def oracle0 : Oracle := ⟨.ok [7], .ok [8], .ok (), 0, some [9], .ok ()⟩

/-- The scenario request, carrying the configured API key. -/
def req0 : Request := ⟨⟨("t1").data, ("s1").data, [], data0⟩, some (("secret").data)⟩

/-- A request whose data mapping lacks certificate_number entirely. -/
def reqNoCert : Request :=
  ⟨⟨("t1").data, ("s1").data, [], []⟩, some (("secret").data)⟩

/-- Status code observable of a response (200 for success bodies). -/
def statusOf : Response → Nat
  | .ok _ => 200
  | .err s _ => s

/-- Request whose certificate number is present but whose first name
sanitizes to the empty string. -/
def reqBadName : Request :=
  ⟨⟨("t1").data, ("s1").data, [],
    [(keyCert, ("C1").data), (keyFirst, ("!!!").data), (keyLast, ("Doe").data)]⟩,
   some (("secret").data)⟩

/-- Oracle in which the signature download fails. -/
def oracleSigFail : Oracle :=
  ⟨.ok [7], .error (("NoSuchKey").data), .ok (), 0, some [9], .ok ()⟩

/-- Oracle in which the LibreOffice process exits with status 1. -/
def oracleConvFail : Oracle := ⟨.ok [7], .ok [8], .ok (), 1, some [9], .ok ()⟩

theorem subWsAux_cons_ws (inRun : Bool) (c : Char) (cs : List Char)
    (h : isPySpace c = true) :
    subWsAux inRun (c :: cs) =
      (if inRun then subWsAux true cs else '_' :: subWsAux true cs) := by
  simp only [subWsAux, h, if_pos]

theorem subWsAux_cons_not_ws (inRun : Bool) (c : Char) (cs : List Char)
    (h : isPySpace c = false) :
    subWsAux inRun (c :: cs) = c :: subWsAux false cs := by
  simp only [subWsAux, h]
  simp

theorem collapseWsRuns_cons_cons (a b : Char) (rest : List Char) :
    collapseWsRuns (a :: b :: rest) =
      (if isPySpace a && isPySpace b then collapseWsRuns (b :: rest)
       else a :: collapseWsRuns (b :: rest)) := rfl

theorem subWsAux_eq_collapse (s : List Char) :
    subWsAux false s = (collapseWsRuns s).map wsUnderscore ∧
    (headIsWs s = true → '_' :: subWsAux true s = (collapseWsRuns s).map wsUnderscore) := by
  induction s with
  | nil => simp [subWsAux, collapseWsRuns, headIsWs]
  | cons c cs ih =>
    cases hc : isPySpace c with
    | false =>
      refine ⟨?_, by simp [headIsWs, hc]⟩
      rw [subWsAux_cons_not_ws false c cs hc]
      cases cs with
      | nil => simp [subWsAux, collapseWsRuns, wsUnderscore, hc]
      | cons b rest =>
        rw [collapseWsRuns_cons_cons, if_neg (by simp [hc])]
        simp [wsUnderscore, hc, ih.1]
    | true =>
      have hmain : '_' :: subWsAux true cs = (collapseWsRuns (c :: cs)).map wsUnderscore := by
        cases cs with
        | nil => simp [subWsAux, collapseWsRuns, wsUnderscore, hc]
        | cons b rest =>
          cases hb : isPySpace b with
          | false =>
            rw [collapseWsRuns_cons_cons, if_neg (by simp [hb])]
            rw [subWsAux_cons_not_ws true b rest hb]
            have h1 := ih.1
            rw [subWsAux_cons_not_ws false b rest hb] at h1
            simp [wsUnderscore, hc, h1]
          | true =>
            have hq := ih.2 (by simp [headIsWs, hb])
            rw [collapseWsRuns_cons_cons, if_pos (by simp [hc, hb])]
            rw [subWsAux_cons_ws true b rest hb]
            rw [subWsAux_cons_ws true b rest hb, if_pos rfl] at hq
            exact hq
      constructor
      · rw [subWsAux_cons_ws false c cs hc, if_neg (by simp)]
        exact hmain
      · intro _
        rw [subWsAux_cons_ws true c cs hc, if_pos rfl]
        exact hmain

theorem dropWhile_eq_self_of_none (p : Char → Bool) (l : List Char)
    (h : ∀ c ∈ l, p c = false) : l.dropWhile p = l := by
  cases l with
  | nil => rfl
  | cons a as => simp [List.dropWhile, h a (by simp)]

theorem pyStrip_of_no_ws (l : List Char) (h : ∀ c ∈ l, isPySpace c = false) :
    pyStrip l = l := by
  unfold pyStrip
  rw [dropWhile_eq_self_of_none isPySpace l h]
  rw [dropWhile_eq_self_of_none isPySpace l.reverse (fun c hc => h c (List.mem_reverse.mp hc))]
  exact List.reverse_reverse l

theorem subWsAux_of_no_ws (l : List Char) (h : ∀ c ∈ l, isPySpace c = false) :
    subWsAux false l = l := by
  induction l with
  | nil => rfl
  | cons a as ih =>
    rw [subWsAux_cons_not_ws false a as (h a (by simp))]
    rw [ih (fun c hc => h c (by simp [hc]))]

theorem mem_safe_part_allowed (s : List Char) (c : Char) (hc : c ∈ safe_part s) :
    isAllowed c = true := (List.mem_filter.mp hc).2

theorem isAllowed_not_space (c : Char) (h : isAllowed c = true) :
    isPySpace c = false := by
  cases hs : isPySpace c with
  | false => rfl
  | true =>
    exfalso
    have hmem : ((((c = ' ' ∨ c = '\t') ∨ c = '\n') ∨ c = '\x0d') ∨ c = '\x0b') ∨ c = '\x0c' := by
      simpa [isPySpace] using hs
    rcases hmem with ((((h1 | h1) | h1) | h1) | h1) | h1 <;> subst h1 <;> simp_all [isAllowed]

/-- Claim C6: the filename sanitizer equals the specification-side
composition (trim surrounding whitespace, collapse each maximal
internal whitespace run to a single underscore, strip every character
outside the class of letters, digits and underscore). -/
theorem c6_sanitizer_decomposition (s : List Char) :
    safe_part s = specSanitize s := by
  unfold safe_part specSanitize subWs
  rw [(subWsAux_eq_collapse (pyStrip s)).1]

/-- Claim C7: the filename sanitizer is idempotent. -/
theorem c7_sanitizer_idempotent (s : List Char) :
    safe_part (safe_part s) = safe_part s := by
  have hall : ∀ c ∈ safe_part s, isAllowed c = true := mem_safe_part_allowed s
  have hnows : ∀ c ∈ safe_part s, isPySpace c = false :=
    fun c hc => isAllowed_not_space c (hall c hc)
  show (subWs (pyStrip (safe_part s))).filter isAllowed = safe_part s
  rw [pyStrip_of_no_ws _ hnows]
  unfold subWs
  rw [subWsAux_of_no_ws _ hnows]
  exact List.filter_eq_self.mpr hall

theorem digVal_digitChar_mod (k : Nat) :
    digVal (Nat.digitChar (k % 10)) = k % 10 := by
  have h : k % 10 < 10 := Nat.mod_lt k (by norm_num)
  interval_cases h1 : k % 10 <;> decide

theorem isDig_digitChar_mod (k : Nat) :
    isDig (Nat.digitChar (k % 10)) = true := by
  have h : k % 10 < 10 := Nat.mod_lt k (by norm_num)
  interval_cases h1 : k % 10 <;> decide

theorem daysInMonth_le_31 (y m : Nat) : daysInMonth y m ≤ 31 := by
  unfold daysInMonth
  split
  · split <;> omega
  · split <;> omega

theorem fromisoformat_cons10 (y1 y2 y3 y4 sep1 m1 m2 sep2 d1 d2 : Char)
    (rest : List Char) :
    fromisoformat (y1 :: y2 :: y3 :: y4 :: sep1 :: m1 :: m2 :: sep2 :: d1 :: d2 :: rest) =
      (if sep1 = '-' ∧ sep2 = '-' ∧
          isDig y1 ∧ isDig y2 ∧ isDig y3 ∧ isDig y4 ∧
          isDig m1 ∧ isDig m2 ∧ isDig d1 ∧ isDig d2 then
        let y := digVal y1 * 1000 + digVal y2 * 100 + digVal y3 * 10 + digVal y4
        let m := digVal m1 * 10 + digVal m2
        let d := digVal d1 * 10 + digVal d2
        if 1 ≤ y ∧ 1 ≤ m ∧ m ≤ 12 ∧ 1 ≤ d ∧ d ≤ daysInMonth y m ∧
           validTimeTail rest = true then
          some ⟨y, m, d⟩
        else none
      else none) := rfl

/-- Claim C4: date normalization maps a parsed ISO date to its
`MM/DD/YYYY` rendering and returns every unparseable input unchanged;
moreover every calendar-valid `YYYY-MM-DD` string parses back to the
date it denotes, so it is reformatted rather than passed through. -/
theorem c4_date_normalization :
    (∀ s, fromisoformat s = none → format_mmddyyyy s = s) ∧
    (∀ s d, fromisoformat s = some d → format_mmddyyyy s = mmddyyyyOf d) ∧
    (∀ y m d, 1 ≤ y → y ≤ 9999 → 1 ≤ m → m ≤ 12 → 1 ≤ d → d ≤ daysInMonth y m →
      fromisoformat (isoDateChars y m d) = some ⟨y, m, d⟩ ∧
      format_mmddyyyy (isoDateChars y m d) = pad2 m ++ '/' :: pad2 d ++ '/' :: pad4 y) := by
  refine ⟨?_, ?_, ?_⟩
  · intro s h
    unfold format_mmddyyyy
    rw [h]
  · intro s d h
    unfold format_mmddyyyy
    rw [h]
  · intro y m d hy1 hy2 hm1 hm2 hd1 hd2
    have hparse : fromisoformat (isoDateChars y m d) = some ⟨y, m, d⟩ := by
      have hyv : digVal (Nat.digitChar (y / 1000 % 10)) * 1000 +
          digVal (Nat.digitChar (y / 100 % 10)) * 100 +
          digVal (Nat.digitChar (y / 10 % 10)) * 10 +
          digVal (Nat.digitChar (y % 10)) = y := by
        rw [digVal_digitChar_mod, digVal_digitChar_mod, digVal_digitChar_mod,
          digVal_digitChar_mod]
        omega
      have hmv : digVal (Nat.digitChar (m / 10 % 10)) * 10 +
          digVal (Nat.digitChar (m % 10)) = m := by
        rw [digVal_digitChar_mod, digVal_digitChar_mod]
        omega
      have hd31 : d <= 31 := le_trans hd2 (daysInMonth_le_31 y m)
      have hdv : digVal (Nat.digitChar (d / 10 % 10)) * 10 +
          digVal (Nat.digitChar (d % 10)) = d := by
        rw [digVal_digitChar_mod, digVal_digitChar_mod]
        omega
      simp only [isoDateChars, pad4, pad2, List.cons_append, List.nil_append]
      rw [fromisoformat_cons10]
      rw [if_pos ⟨rfl, rfl,
        isDig_digitChar_mod (y / 1000), isDig_digitChar_mod (y / 100),
        isDig_digitChar_mod (y / 10), isDig_digitChar_mod y,
        isDig_digitChar_mod (m / 10), isDig_digitChar_mod m,
        isDig_digitChar_mod (d / 10), isDig_digitChar_mod d⟩]
      simp only [hyv, hmv, hdv]
      rw [if_pos ⟨hy1, hm1, hm2, hd1, hd2, rfl⟩]
    refine ⟨hparse, ?_⟩
    unfold format_mmddyyyy
    rw [hparse]
    rfl

theorem c4_witness :
    format_mmddyyyy (("not-a-date").data) = ("not-a-date").data ∧
    format_mmddyyyy (("2024-03-05").data) = ("03/05/2024").data := by
  constructor
  · exact c4_date_normalization.1 (("not-a-date").data) (by decide)
  · have h := (c4_date_normalization.2.2 2024 3 5 (by decide) (by decide)
      (by decide) (by decide) (by decide) (by decide)).2
    rw [(by decide : isoDateChars 2024 3 5 = ("2024-03-05").data)] at h
    rw [h]
    decide

theorem derive_output_key_shape (data : List (List Char × List Char))
    (h1 : safe_part (dictGet data keyCert []) ≠ [])
    (h2 : safe_part (dictGet data keyFirst []) ≠ [])
    (h3 : safe_part (dictGet data keyLast []) ≠ []) :
    derive_output_key data = Except.ok
      (certFolder ++ safe_part (dictGet data keyCert []) ++
        '_' :: safe_part (dictGet data keyFirst []) ++
        (if safe_part (dictGet data keyMiddle []) = [] then []
         else '_' :: safe_part (dictGet data keyMiddle [])) ++
        '_' :: safe_part (dictGet data keyLast []) ++ dotDocx) := by
  unfold derive_output_key
  rw [if_neg (by push_neg; exact ⟨h1, h2, h3⟩)]
  by_cases hm : safe_part (dictGet data keyMiddle []) = []
  · rw [hm]
    simp [pyJoin]
  · rw [if_neg hm]
    simp [pyJoin, if_neg hm]

/-- Claim C5: for every valid request the derived key is exactly
`certificates/` followed by the sanitized certificate number, first
name, optional middle name and last name joined by underscores with
the `.docx` suffix, the middle component omitted when it sanitizes to
empty; and the handler result is independent of the caller-supplied
outputKey. -/
theorem c5_derived_key :
    (∀ data : List (List Char × List Char),
      safe_part (dictGet data keyCert []) ≠ [] →
      safe_part (dictGet data keyFirst []) ≠ [] →
      safe_part (dictGet data keyLast []) ≠ [] →
      derive_output_key data = Except.ok
        (certFolder ++ safe_part (dictGet data keyCert []) ++
          '_' :: safe_part (dictGet data keyFirst []) ++
          (if safe_part (dictGet data keyMiddle []) = [] then []
           else '_' :: safe_part (dictGet data keyMiddle [])) ++
          '_' :: safe_part (dictGet data keyLast []) ++ dotDocx)) ∧
    (∀ (env : Env) (o : Oracle) (tk sk k1 k2 : List Char)
        (data : List (List Char × List Char)) (hdr : Option (List Char)),
      generate_docx env o ⟨⟨tk, sk, k1, data⟩, hdr⟩ =
        generate_docx env o ⟨⟨tk, sk, k2, data⟩, hdr⟩) :=
  ⟨derive_output_key_shape, fun _ _ _ _ _ _ _ _ => rfl⟩

theorem c5_witness :
    safe_part (dictGet data0 keyCert []) ≠ [] ∧
    derive_output_key data0 = Except.ok (("certificates/CERT001_Jane_Doe.docx").data) := by
  constructor
  · decide
  · have h := c5_derived_key.1 data0 (by decide) (by decide) (by decide)
    rw [h]
    exact congrArg Except.ok (by decide)

/-- Claim C1, code-bug evidence: the two request-validation failures
raised as 400 `HTTPException`s inside the `try` block are caught by the
blanket `except Exception` handler and reported as 500 responses, the
same class as genuine pipeline failures, so the 400 class never reaches
the caller. -/
theorem c1_validation_conflated :
    generate_docx env0 oracle0 reqNoCert =
      ([ExtCall.download (("t1").data)],
       Response.err 500 (("400: certificate_number missing").data)) ∧
    generate_docx env0 oracle0 reqBadName =
      ([ExtCall.download (("t1").data), ExtCall.download (("s1").data)],
       Response.err 500
         (("400: certificate_number, first_name and last_name are required").data)) ∧
    statusOf (generate_docx env0 oracleSigFail req0).2 = 500 := by
  refine ⟨by decide, by decide, by decide⟩

/-- Claim C3, counterexample: on a request with no certificate_number
the handler has already attempted an external call (the template
download) before the validation failure, and the failure surfaces with
status 500, not a 400-class status. -/
theorem c3_counterexample :
    (generate_docx env0 oracle0 reqNoCert).1 ≠ [] ∧
    statusOf (generate_docx env0 oracle0 reqNoCert).2 = 500 := by
  refine ⟨by decide, by decide⟩

/-- Claim C3 as amended: for every request carrying the configured API
key whose template download succeeds and whose data lacks a non-empty
certificate_number, the handler stops after exactly one external call
(the template download) and reports a 500 response whose detail carries
the 400 validation message. -/
theorem c3_amended (env : Env) (o : Oracle) (req : Request) (tb : Bytes)
    (hk : req.apiKeyHeader = some env.internalApiKey)
    (ht : o.template = Except.ok tb)
    (hc : dictGet req.payload.data keyCert [] = []) :
    generate_docx env o req =
      ([ExtCall.download req.payload.templateKey],
       Response.err 500 (strOfExc (PyExc.httpExc 400 msgCertMissing))) := by
  unfold generate_docx
  rw [if_neg (by simp [hk]), ht]
  simp only [hc]
  simp

theorem c3_witness :
    generate_docx env0 oracle0 reqNoCert =
      ([ExtCall.download (("t1").data)],
       Response.err 500 (strOfExc (PyExc.httpExc 400 msgCertMissing))) :=
  c3_amended env0 oracle0 reqNoCert [7] (by decide) rfl (by decide)

/-- Claim C2, counterexample: on the scenario request the key returned
to the caller is `certificates/CERT001_Jane_Doe.pdf` (the hyphen of
CERT-001 is stripped by the sanitizer and conversion rewrites the
extension), not `certificates/CERT-001_Jane_Doe.docx`. -/
theorem c2_counterexample :
    (generate_docx env0 oracle0 req0).2 =
      Response.ok (("certificates/CERT001_Jane_Doe.pdf").data) ∧
    Response.ok (("certificates/CERT001_Jane_Doe.pdf").data) ≠
      Response.ok (("certificates/CERT-001_Jane_Doe.docx").data) := by
  refine ⟨by decide, by decide⟩

/-- Claim C2 as amended: on the scenario request the internally derived
docx key is `certificates/CERT001_Jane_Doe.docx`, the key returned on
success is `certificates/CERT001_Jane_Doe.pdf`, and training_date is
bound in the render context as `01/15/2024`. -/
theorem c2_scenario :
    generate_docx env0 oracle0 req0 =
      ([ExtCall.download (("t1").data), ExtCall.download (("s1").data),
        ExtCall.convert,
        ExtCall.upload (("certificates/CERT001_Jane_Doe.pdf").data)],
       Response.ok (("certificates/CERT001_Jane_Doe.pdf").data)) ∧
    derive_output_key data0 =
      Except.ok (("certificates/CERT001_Jane_Doe.docx").data) ∧
    (build_context data0
       (InlineImageM.mk (qrMake (mkVerifyUrl env0.verifyBaseUrl (dictGet data0 keyCert []))) 30)
       (InlineImageM.mk (normalizeSignature [8]) 30)).training_date =
      ("01/15/2024").data := by
  exact ⟨by decide, rfl, rfl⟩

theorem head?_dropWhile_false (p : Char → Bool) :
    ∀ (l : List Char) (c : Char), (l.dropWhile p).head? = some c → p c = false := by
  intro l
  induction l with
  | nil => intro c h; cases h
  | cons a as ih =>
    intro c h
    by_cases ha : p a
    · rw [List.dropWhile_cons_of_pos ha] at h
      exact ih c h
    · rw [List.dropWhile_cons_of_neg ha] at h
      cases h
      simpa using ha

/-- Claim C8, counterexample: a certificate number beginning with a
slash yields a duplicate separator at the junction, refuting the
claimed single normalized slash for every non-empty certificate
number. -/
theorem c8_counterexample :
    mkVerifyUrl (("https://verify.example").data) ('/' :: ("abc").data) =
      (("https://verify.example//abc").data) ∧
    (("https://verify.example//abc").data) ≠ (("https://verify.example/abc").data) := by
  refine ⟨by decide, by decide⟩

/-- Claim C8 as amended: the QR payload URL is the base with all of its
trailing slashes removed, one inserted slash, then the raw certificate
number; the stripped base never ends in a slash, so whenever the
certificate number does not itself begin with a slash the junction
holds exactly one separator (no url of the double-slash-junction form
is produced). -/
theorem c8_amended (base cert : List Char) :
    mkVerifyUrl base cert = rstripSlashes base ++ '/' :: cert ∧
    (∀ b, (rstripSlashes base).getLast? = some b → b ≠ '/') ∧
    (cert.head? ≠ some '/' →
      ∀ t, mkVerifyUrl base cert ≠ rstripSlashes base ++ '/' :: '/' :: t) := by
  refine ⟨rfl, ?_, ?_⟩
  · intro b hb
    unfold rstripSlashes at hb
    rw [List.getLast?_reverse] at hb
    have := head?_dropWhile_false (fun c => c = '/') base.reverse b hb
    simpa using this
  · intro hhead t heq
    unfold mkVerifyUrl at heq
    have h2 := List.append_cancel_left heq
    cases h2
    exact hhead rfl

theorem c8_witness :
    mkVerifyUrl (("https://verify.example/").data) (("abc").data) ≠
      rstripSlashes (("https://verify.example/").data) ++ '/' :: '/' :: ("x").data :=
  (c8_amended (("https://verify.example/").data) (("abc").data)).2.2 (by decide) (("x").data)

theorem convert_docx_to_pdf_nonzero (o : Oracle) (b : Bytes)
    (h : o.convertExit ≠ 0) :
    convert_docx_to_pdf o b = Except.error (PyExc.calledProcessError o.convertExit) := by
  unfold convert_docx_to_pdf
  rw [if_pos h]

/-- Claim C9: a non-zero exit status of the conversion process makes
the conversion step fail with the process error (a failure distinct
from the zero-exit-missing-output RuntimeError), and on every such
request no upload to the object store is attempted. -/
theorem c9_convert_nonzero :
    (∀ (o : Oracle) (b : Bytes), o.convertExit ≠ 0 →
      convert_docx_to_pdf o b = Except.error (PyExc.calledProcessError o.convertExit) ∧
      ∀ m, PyExc.calledProcessError o.convertExit ≠ PyExc.runtimeError m) ∧
    (∀ (env : Env) (o : Oracle) (req : Request), o.convertExit ≠ 0 →
      ∀ k, ExtCall.upload k ∉ (generate_docx env o req).1) := by
  constructor
  · intro o b h
    exact ⟨convert_docx_to_pdf_nonzero o b h, fun m hm => by cases hm⟩
  · intro env o req h k
    have hconv : ∀ b, convert_docx_to_pdf o b =
        Except.error (PyExc.calledProcessError o.convertExit) :=
      fun b => convert_docx_to_pdf_nonzero o b h
    unfold generate_docx
    dsimp only
    repeat' split
    all_goals simp_all [hconv]

theorem c9_witness :
    convert_docx_to_pdf oracleConvFail [7] =
      Except.error (PyExc.calledProcessError 1) ∧
    ExtCall.upload (("certificates/CERT001_Jane_Doe.pdf").data) ∉
      (generate_docx env0 oracleConvFail req0).1 :=
  ⟨(c9_convert_nonzero.1 oracleConvFail [7] (by decide)).1,
   c9_convert_nonzero.2 env0 oracleConvFail req0 (by decide) _⟩

theorem isAllowed_ne_dot (c : Char) (h : isAllowed c = true) : c ≠ '.' := by
  intro heq
  subst heq
  simp [isAllowed] at h

theorem mem_pyJoin (sep : List Char) :
    ∀ (L : List (List Char)) (c : Char), c ∈ pyJoin sep L →
      c ∈ sep ∨ ∃ x ∈ L, c ∈ x := by
  intro L
  induction L with
  | nil => intro c hc; simp [pyJoin] at hc
  | cons x xs ih =>
    intro c hc
    cases xs with
    | nil =>
      right
      exact ⟨x, by simp, by simpa [pyJoin] using hc⟩
    | cons y ys =>
      have hc2 : c ∈ x ++ sep ++ pyJoin sep (y :: ys) := by
        simpa [pyJoin] using hc
      rcases List.mem_append.mp hc2 with hc3 | hc3
      · rcases List.mem_append.mp hc3 with hc4 | hc4
        · exact Or.inr ⟨x, by simp, hc4⟩
        · exact Or.inl hc4
      · rcases ih c hc3 with hs | ⟨z, hz, hcz⟩
        · exact Or.inl hs
        · exact Or.inr ⟨z, by simp [hz], hcz⟩

theorem take_len_cons_ne (c : Char) (cs : List Char) (hc : c ≠ '.') :
    ¬((c :: cs).take dotDocx.length = dotDocx ∧ dotDocx ≠ []) := by
  intro ⟨h1, _⟩
  rw [(by rfl : dotDocx.length = 5)] at h1
  rw [List.take_succ_cons] at h1
  exact hc (by injection h1)

theorem replaceAllAux_docx_stem :
    ∀ (stem : List Char), (∀ c ∈ stem, c ≠ '.') →
      replaceAllAux dotDocx dotPdf 0 (stem ++ dotDocx) = stem ++ dotPdf := by
  intro stem
  induction stem with
  | nil => intro _; decide
  | cons c st ih =>
    intro hall
    have hc : c ≠ '.' := hall c (by simp)
    rw [List.cons_append]
    simp only [replaceAllAux]
    rw [if_neg (take_len_cons_ne c (st ++ dotDocx) hc)]
    rw [ih (fun d hd => hall d (by simp [hd]))]
    simp

theorem countOccAux_docx_stem :
    ∀ (stem : List Char), (∀ c ∈ stem, c ≠ '.') →
      countOccAux dotDocx 0 (stem ++ dotDocx) = 1 := by
  intro stem
  induction stem with
  | nil => intro _; decide
  | cons c st ih =>
    intro hall
    have hc : c ≠ '.' := hall c (by simp)
    rw [List.cons_append]
    simp only [countOccAux]
    rw [if_neg (take_len_cons_ne c (st ++ dotDocx) hc)]
    exact ih (fun d hd => hall d (by simp [hd]))

theorem parts_allowed (a b m l : List Char) :
    ∀ x ∈ (([safe_part a, safe_part b] ++
        (if safe_part m = [] then [] else [safe_part m]) ++
        [safe_part l]) : List (List Char)),
      ∀ d ∈ x, isAllowed d = true := by
  intro x hx d hd
  have hx4 : x = safe_part a ∨ x = safe_part b ∨ x = safe_part m ∨ x = safe_part l := by
    by_cases hm : safe_part m = []
    · rw [if_pos hm] at hx
      simp at hx
      tauto
    · rw [if_neg hm] at hx
      simp at hx
      tauto
  rcases hx4 with h1 | h1 | h1 | h1 <;> subst h1 <;>
    exact mem_safe_part_allowed _ d hd

theorem derive_key_docx_form (data : List (List Char × List Char)) (k : List Char)
    (h : derive_output_key data = Except.ok k) :
    ∃ stem, k = stem ++ dotDocx ∧ ∀ c ∈ stem, c ≠ '.' := by
  unfold derive_output_key at h
  dsimp only at h
  split at h
  · cases h
  · injection h with h2
    refine ⟨certFolder ++ pyJoin ['_']
      ([safe_part (dictGet data keyCert []), safe_part (dictGet data keyFirst [])] ++
       (if safe_part (dictGet data keyMiddle []) = [] then []
        else [safe_part (dictGet data keyMiddle [])]) ++
       [safe_part (dictGet data keyLast [])]), ?_, ?_⟩
    · rw [← h2]
    · intro c hc
      have hpre : ∀ d ∈ certFolder, d ≠ '.' := by decide
      rcases List.mem_append.mp hc with hp | hj
      · exact hpre c hp
      · rcases mem_pyJoin ['_'] _ c hj with hs | ⟨x, hx, hcx⟩
        · have hu : c = '_' := by simpa using hs
          subst hu
          decide
        · exact isAllowed_ne_dot c
            (parts_allowed (dictGet data keyCert []) (dictGet data keyFirst [])
              (dictGet data keyMiddle []) (dictGet data keyLast []) x hx c hcx)

theorem generate_docx_ok_key (env : Env) (o : Oracle) (req : Request)
    (t : List ExtCall) (key : List Char)
    (h : generate_docx env o req = (t, Response.ok key)) :
    ∃ okey, derive_output_key req.payload.data = Except.ok okey ∧
      key = replaceAll dotDocx dotPdf okey := by
  unfold generate_docx at h
  dsimp only at h
  repeat' split at h
  all_goals simp_all

/-- Claim C10: every derived key splits as a dot-free stem followed by
`.docx`, so `.docx` occurs exactly once in it (as its suffix) and the
extension rewrite maps it to the same stem followed by `.pdf`; and
every key returned by the handler on success ends in `.pdf`. -/
theorem c10_extension_rewrite :
    (∀ (data : List (List Char × List Char)) (k : List Char),
      derive_output_key data = Except.ok k →
      ∃ stem, k = stem ++ dotDocx ∧ (∀ c ∈ stem, c ≠ '.') ∧
        countOcc dotDocx k = 1 ∧
        replaceAll dotDocx dotPdf k = stem ++ dotPdf) ∧
    (∀ (env : Env) (o : Oracle) (req : Request) (t : List ExtCall) (key : List Char),
      generate_docx env o req = (t, Response.ok key) →
      ∃ stem, key = stem ++ dotPdf) := by
  constructor
  · intro data k h
    obtain ⟨stem, hk, hdot⟩ := derive_key_docx_form data k h
    subst hk
    exact ⟨stem, rfl, hdot, countOccAux_docx_stem stem hdot,
      replaceAllAux_docx_stem stem hdot⟩
  · intro env o req t key h
    obtain ⟨okey, hd, hkey⟩ := generate_docx_ok_key env o req t key h
    obtain ⟨stem, hk, hdot⟩ := derive_key_docx_form req.payload.data okey hd
    refine ⟨stem, ?_⟩
    rw [hkey, hk]
    exact replaceAllAux_docx_stem stem hdot

theorem c10_witness :
    (∃ stem, (("certificates/CERT001_Jane_Doe.docx").data) = stem ++ dotDocx ∧
      (∀ c ∈ stem, c ≠ '.') ∧
      countOcc dotDocx (("certificates/CERT001_Jane_Doe.docx").data) = 1 ∧
      replaceAll dotDocx dotPdf (("certificates/CERT001_Jane_Doe.docx").data) =
        stem ++ dotPdf) ∧
    (∃ stem, (("certificates/CERT001_Jane_Doe.pdf").data) = stem ++ dotPdf) :=
  ⟨c10_extension_rewrite.1 data0 (("certificates/CERT001_Jane_Doe.docx").data) rfl,
   c10_extension_rewrite.2 env0 oracle0 req0
     [ExtCall.download (("t1").data), ExtCall.download (("s1").data), ExtCall.convert,
      ExtCall.upload (("certificates/CERT001_Jane_Doe.pdf").data)]
     (("certificates/CERT001_Jane_Doe.pdf").data) (by decide)⟩
